import Mathlib

/-!
Shallow embedding of `packages/building-utils/index-html/loader-script.js`:
a generator producing the source text of a browser bootstrap script that
loads polyfills and application entry bundles.

External collaborators (`cleanImportPath`, `polyfillFilename` from `./utils`,
and the `Terser.minify` minifier) are not part of this module; they are taken
as function parameters, so every theorem quantifies over their behaviour.
JS braces and single quotes inside generated code are written with the
escapes `\x7b`, `\x7d` and `\x27` in Lean string literals.
-/

/-- Loading strategy tag: the `type` field of an entries config
(`script` / `module` / `system` in the JS source). -/
inductive EntryType
  | script
  | module
  | system
deriving DecidableEq, Repr

/-- `EntriesConfig`: one deployable bundle variant.
`polyfillDynamicImport` is an optional JS boolean, so `Option Bool`
(`none` = absent/undefined). -/
structure EntriesConfig where
  type : EntryType
  files : List String
  polyfillDynamicImport : Option Bool
deriving Repr

/-- `Polyfill` descriptor. `test` is an optional JS string (`none` =
absent/undefined; `some ""` is falsy in JS just like absence). `module` is an
optional JS boolean. `name` stands for the identifying fields consumed by the
external filename resolver. -/
structure Polyfill where
  test : Option String
  module : Option Bool
  name : String
deriving Repr

/-- JS truthiness of an optional boolean field, as in `Boolean(polyfill.module)`:
`undefined` coerces to `false`. -/
def jsBool : Option Bool → Bool
  | some b => b
  | none => false

/-- JS truthiness of an optional string field, as in `if (!polyfill.test)`:
`undefined` and the empty string are falsy. -/
def strTruthy : Option String → Bool
  | none => false
  | some s => !(s == "")

/-- The `loadScript` helper source text (template constant `loadScriptFunction`
at the top of the JS file). -/
def loadScriptFunction : String :=
  "\n  function loadScript(src, module) \x7b\n    return new Promise(function (resolve, reject) \x7b\n      document.head.appendChild(Object.assign(\n        document.createElement(\x27script\x27),\n        \x7b src: src, onload: resolve, onerror: reject \x7d,\n        module ? \x7b type: \x27module\x27 \x7d : undefined\n      ));\n    \x7d);\n  \x7d\n\n"

/-- `createLoadScriptFunction(entries, legacyEntries, polyfills)`: returns the
`loadScript` helper text when polyfills are present and non-empty, or when the
modern or (present) legacy entries use the `script` strategy; otherwise `''`. -/
def createLoadScriptFunction (entries : EntriesConfig) (legacyEntries : Option EntriesConfig)
    (polyfills : Option (List Polyfill)) : String :=
  if (match polyfills with
      | some ps => decide (0 < ps.length)
      | none => false) then
    loadScriptFunction
  else if entries.type == EntryType.script
      || (match legacyEntries with
          | some l => l.type == EntryType.script
          | none => false) then
    loadScriptFunction
  else
    ""

/-- `asArrayLiteral`: wrap each element in single quotes and join with commas
inside square brackets. -/
def asArrayLiteral (arr : List String) : String :=
  "[" ++ String.intercalate "," (arr.map (fun e => "\x27" ++ e ++ "\x27")) ++ "]"

/-- The `entryLoaderCreators` dispatch table, keyed by strategy. The JS call
sites pass `polyfillDynamicImport` only for the modern entries; the `script`
and `system` creators ignore it, as in the source. -/
def entryLoaderCreators (t : EntryType) (files : List String)
    (polyfillDynamicImport : Option Bool) : String :=
  match t with
  | EntryType.script =>
    match files with
    | [file] => "loadScript(\x27" ++ file ++ "\x27)"
    | _ => asArrayLiteral files ++ ".forEach(function (entry) \x7b loadScript(entry); \x7d)"
  | EntryType.module =>
    let importFunction :=
      if polyfillDynamicImport = some false then "import" else "window.importShim"
    match files with
    | [file] => importFunction ++ "(\x27" ++ file ++ "\x27)"
    | _ =>
      asArrayLiteral files ++ ".forEach(function (entry) \x7b " ++ importFunction
        ++ "(entry); \x7d)"
  | EntryType.system =>
    match files with
    | [file] => "System.import(\x27" ++ file ++ "\x27)"
    | _ => asArrayLiteral files ++ ".forEach(function (entry) \x7b System.import(entry); \x7d)"

/-- `createEntriesLoaderFunction(entries, legacyEntries, publicPath)`: the body
of the generated `loadEntries` function. `cleanImportPath` is the external path
cleaner from `./utils`, taken as a parameter. The legacy creator call passes no
`polyfillDynamicImport` argument (JS `undefined`, here `none`). -/
def createEntriesLoaderFunction (cleanImportPath : String → String → String)
    (entries : EntriesConfig) (legacyEntries : Option EntriesConfig)
    (publicPath : String) : String :=
  let importPath := fun path => cleanImportPath path publicPath
  match legacyEntries with
  | none =>
    entryLoaderCreators entries.type (entries.files.map importPath)
      entries.polyfillDynamicImport ++ ";"
  | some legacy =>
    let load := entryLoaderCreators entries.type (entries.files.map importPath)
      entries.polyfillDynamicImport
    let loadLegacy := entryLoaderCreators legacy.type (legacy.files.map importPath) none
    "\x27noModule\x27 in HTMLScriptElement.prototype ? " ++ load ++ " : " ++ loadLegacy ++ ";"

/-- `createExecuteLoadEntries(polyfills)`: the statement that triggers entry
loading, waiting on the polyfill promises when any polyfills are configured. -/
def createExecuteLoadEntries (polyfills : Option (List Polyfill)) : String :=
  match polyfills with
  | some ps =>
    if ps.length ≠ 0 then
      "polyfills.length ? Promise.all(polyfills).then(loadEntries) : loadEntries();"
    else
      "loadEntries()"
  | none => "loadEntries()"

/-- `createEntriesLoader(entries, legacyEntries, polyfills, publicPath)`:
template wrapping the `loadEntries` function definition and the
execute-load-entries statement. -/
def createEntriesLoader (cleanImportPath : String → String → String)
    (entries : EntriesConfig) (legacyEntries : Option EntriesConfig)
    (polyfills : Option (List Polyfill)) (publicPath : String) : String :=
  let loadEntriesFunction := createEntriesLoaderFunction cleanImportPath entries
    legacyEntries publicPath
  let executeLoadEntries := createExecuteLoadEntries polyfills
  "\n  function loadEntries() \x7b\n    " ++ loadEntriesFunction ++ "\n  \x7d\n\n  "
    ++ executeLoadEntries ++ "\n"

/-- The `forEach` callback inside `createPolyfillsLoader`: appends to `code`
the conditional `polyfills.push(loadScript(...))` statement for one polyfill,
skipping polyfills with a falsy `test`. `polyfillFilename` is the external
filename resolver from `./utils`, taken as a parameter together with its
opaque config type `Cfg`. -/
def pushPolyfillCode {Cfg : Type} (polyfillFilename : Polyfill → Cfg → String)
    (polyfillsConfig : Cfg) (publicPath : String)
    (code : String) (polyfill : Polyfill) : String :=
  match polyfill.test with
  | none => code
  | some t =>
    if t = "" then code
    else
      code ++ "  if (" ++ t ++ ") \x7b polyfills.push(loadScript(\x27" ++ publicPath
        ++ "polyfills/" ++ polyfillFilename polyfill polyfillsConfig ++ ".js\x27, "
        ++ (if jsBool polyfill.module then "true" else "false") ++ ")) \x7d\n"

/-- `createPolyfillsLoader(polyfills, polyfillsConfig, publicPath)`: `''` when
the polyfills argument is absent; otherwise the `var polyfills = [];`
declaration followed by the `forEach` loop, which is the fold of
`pushPolyfillCode` over the polyfill list. -/
def createPolyfillsLoader {Cfg : Type} (polyfillFilename : Polyfill → Cfg → String)
    (polyfills : Option (List Polyfill)) (polyfillsConfig : Cfg)
    (publicPath : String) : String :=
  match polyfills with
  | none => ""
  | some ps =>
    ps.foldl (pushPolyfillCode polyfillFilename polyfillsConfig publicPath)
      "  var polyfills = [];\n"

/-- `createLoaderScript(entries, legacyEntries, polyfills, polyfillsConfig,
minified, publicPath)`: the self-invoking loader script. The external minifier
(`Terser.minify(code).code`) is the parameter `minify`, applied only when
`minified` is true. -/
def createLoaderScript {Cfg : Type} (cleanImportPath : String → String → String)
    (polyfillFilename : Polyfill → Cfg → String) (minify : String → String)
    (entries : EntriesConfig) (legacyEntries : Option EntriesConfig)
    (polyfills : Option (List Polyfill)) (polyfillsConfig : Cfg)
    (minified : Bool) (publicPath : String) : String :=
  let code :=
    "(function() \x7b"
      ++ createLoadScriptFunction entries legacyEntries polyfills
      ++ createPolyfillsLoader polyfillFilename polyfills polyfillsConfig publicPath
      ++ createEntriesLoader cleanImportPath entries legacyEntries polyfills publicPath
      ++ "\x7d)();"
  if minified then minify code else code

/-- `createPolyfillsLoaderScript(polyfills, polyfillsConfig, funcName,
publicPath)`: a named function containing the `loadScript` helper, the
polyfills-loading code and `return Promise.all(polyfills);`. Never minified. -/
def createPolyfillsLoaderScript {Cfg : Type} (polyfillFilename : Polyfill → Cfg → String)
    (polyfills : Option (List Polyfill)) (polyfillsConfig : Cfg)
    (funcName : String) (publicPath : String) : String :=
  "function " ++ funcName ++ "() \x7b"
    ++ loadScriptFunction
    ++ createPolyfillsLoader polyfillFilename polyfills polyfillsConfig publicPath
    ++ "return Promise.all(polyfills);\n"
    ++ "\x7d"

/-- Spec-level predicate: polyfills are configured, i.e. the argument is
present and non-empty (JS truthiness of `polyfills && polyfills.length`). -/
def hasPolyfills : Option (List Polyfill) → Bool
  | none => false
  | some ps => decide (0 < ps.length)

/-- Spec-side characterization of a `module`-strategy load expression built
with a given import function name (`import` or `window.importShim`). -/
def moduleExprUsing (importFunction : String) (files : List String) : String :=
  match files with
  | [file] => importFunction ++ "(\x27" ++ file ++ "\x27)"
  | _ =>
    asArrayLiteral files ++ ".forEach(function (entry) \x7b " ++ importFunction
      ++ "(entry); \x7d)"

/-- Per-polyfill emission: the single conditional `polyfills.push` statement
for a polyfill with a truthy `test`, the empty string otherwise. -/
def polyfillLine {Cfg : Type} (polyfillFilename : Polyfill → Cfg → String)
    (polyfillsConfig : Cfg) (publicPath : String) (polyfill : Polyfill) : String :=
  match polyfill.test with
  | none => ""
  | some t =>
    if t = "" then ""
    else
      "  if (" ++ t ++ ") \x7b polyfills.push(loadScript(\x27" ++ publicPath
        ++ "polyfills/" ++ polyfillFilename polyfill polyfillsConfig ++ ".js\x27, "
        ++ (if jsBool polyfill.module then "true" else "false") ++ ")) \x7d\n"

/-- Substring occurrence on the underlying character lists. -/
def subPat (pat : List Char) : List Char → Bool
  | [] => pat.isEmpty
  | c :: rest => pat.isPrefixOf (c :: rest) || subPat pat rest

/-- `strContains s pat`: `pat` occurs as a contiguous substring of `s`. -/
def strContains (s pat : String) : Bool :=
  subPat pat.data s.data

set_option maxRecDepth 40000 in
/-- C1 counterexample: with entries `{type: script, files: [a.js]}`, no
legacy entries, no polyfills and `minified = false` (identity resolvers), the
output of `createLoaderScript` is not the bare string
`(function() {loadEntries();})();` claimed by the spec example: the output
also contains the `loadScript` helper and the `loadEntries` definition, and
the final call has no trailing semicolon. -/
theorem c1_counterexample :
    createLoaderScript (fun p _ => p) (fun (p : Polyfill) (_ : Unit) => p.name) (fun s => s)
      ⟨EntryType.script, ["a.js"], none⟩ none none () false ""
      ≠ "(function() \x7bloadEntries();\x7d)();" := by decide

set_option maxRecDepth 40000 in
/-- C1 amended: for entries `{type: script, files: [a.js]}`, no legacy
entries, no polyfills and `minified = false`, whenever the path cleaner maps
`a.js` to itself the output is the self-invoking wrapper containing the
`loadScript` helper (included because the strategy is `script`), a
`loadEntries` function whose body is `loadScript('a.js');`, and the direct
call `loadEntries()` — not the bare `(function() {loadEntries();})();`. -/
theorem c1_amended {Cfg : Type} (cleanImportPath : String → String → String)
    (polyfillFilename : Polyfill → Cfg → String) (minify : String → String)
    (polyfillsConfig : Cfg) (publicPath : String)
    (h : cleanImportPath "a.js" publicPath = "a.js") :
    createLoaderScript cleanImportPath polyfillFilename minify
      ⟨EntryType.script, ["a.js"], none⟩ none none polyfillsConfig false publicPath
      = "(function() \x7b" ++ loadScriptFunction
        ++ "\n  function loadEntries() \x7b\n    loadScript(\x27a.js\x27);\n  \x7d\n\n  loadEntries()\n\x7d)();" := by
  simp only [createLoaderScript, createEntriesLoader, createEntriesLoaderFunction,
    List.map_cons, List.map_nil, h]
  rfl

/-- C1 amended, witnessed at the identity path cleaner. -/
theorem c1_amended_witness :
    (fun p (_ : String) => p) "a.js" "" = "a.js"
  ∧ createLoaderScript (fun p _ => p) (fun (p : Polyfill) (_ : Unit) => p.name) (fun s => s)
      ⟨EntryType.script, ["a.js"], none⟩ none none () false ""
      = "(function() \x7b" ++ loadScriptFunction
        ++ "\n  function loadEntries() \x7b\n    loadScript(\x27a.js\x27);\n  \x7d\n\n  loadEntries()\n\x7d)();" :=
  ⟨rfl, c1_amended (fun p _ => p) (fun p _ => p.name) (fun s => s) () "" rfl⟩

/-- C2: the execute-load-entries fragment is the
`polyfills.length ? Promise.all(polyfills).then(loadEntries) : loadEntries();`
wrapper exactly when polyfills are configured (present and non-empty), and the
direct call `loadEntries()` otherwise. -/
theorem c2_executeLoadEntries (polyfills : Option (List Polyfill)) :
    (hasPolyfills polyfills = true →
      createExecuteLoadEntries polyfills =
        "polyfills.length ? Promise.all(polyfills).then(loadEntries) : loadEntries();")
  ∧ (hasPolyfills polyfills = false →
      createExecuteLoadEntries polyfills = "loadEntries()") := by
  rcases polyfills with _ | (_ | ⟨p, rest⟩)
  · exact ⟨fun h => absurd h (by decide), fun _ => rfl⟩
  · exact ⟨fun h => absurd h (by decide), fun _ => rfl⟩
  · exact ⟨fun _ => rfl, fun h => by simp [hasPolyfills] at h⟩

/-- C2 witnessed at a one-element polyfill list and at an absent argument. -/
theorem c2_executeLoadEntries_witness :
    createExecuteLoadEntries (some [⟨some "!window.fetch", none, "fetch"⟩]) =
      "polyfills.length ? Promise.all(polyfills).then(loadEntries) : loadEntries();"
  ∧ createExecuteLoadEntries none = "loadEntries()" :=
  ⟨(c2_executeLoadEntries (some [⟨some "!window.fetch", none, "fetch"⟩])).1 (by decide),
   (c2_executeLoadEntries none).2 (by decide)⟩

/-- C4: `createPolyfillsLoader` returns the empty string for an absent
polyfills argument, returns exactly the `var polyfills = [];` declaration line
for an empty sequence, and these two outputs differ. -/
theorem c4_polyfillsLoader_absent_vs_empty {Cfg : Type}
    (polyfillFilename : Polyfill → Cfg → String) (polyfillsConfig : Cfg)
    (publicPath : String) :
    createPolyfillsLoader polyfillFilename none polyfillsConfig publicPath = ""
  ∧ createPolyfillsLoader polyfillFilename (some []) polyfillsConfig publicPath
      = "  var polyfills = [];\n"
  ∧ createPolyfillsLoader polyfillFilename none polyfillsConfig publicPath
      ≠ createPolyfillsLoader polyfillFilename (some []) polyfillsConfig publicPath :=
  ⟨rfl, rfl, fun h => absurd (show ("" : String) = "  var polyfills = [];\n" from h) (by decide)⟩

set_option maxRecDepth 40000 in
/-- C9: with an absent polyfills argument, `createPolyfillsLoaderScript`
(default function name `loadPolyfills`) still emits
`return Promise.all(polyfills);` but no `var polyfills = [];` declaration, so
the generated function references an undeclared `polyfills` variable. -/
theorem c9_polyfillsLoaderScript_absent {Cfg : Type}
    (polyfillFilename : Polyfill → Cfg → String) (polyfillsConfig : Cfg)
    (publicPath : String) :
    createPolyfillsLoaderScript polyfillFilename none polyfillsConfig "loadPolyfills" publicPath
      = "function loadPolyfills() \x7b" ++ loadScriptFunction
        ++ "return Promise.all(polyfills);\n\x7d"
  ∧ strContains ("function loadPolyfills() \x7b" ++ loadScriptFunction
      ++ "return Promise.all(polyfills);\n\x7d") "return Promise.all(polyfills);" = true
  ∧ strContains ("function loadPolyfills() \x7b" ++ loadScriptFunction
      ++ "return Promise.all(polyfills);\n\x7d") "var polyfills = [];" = false :=
  ⟨rfl, by decide, by decide⟩

/-- Normal form of `createLoadScriptFunction`: the helper text exactly under
the three-way inclusion condition, the empty string otherwise. -/
lemma createLoadScriptFunction_eq (entries : EntriesConfig)
    (legacyEntries : Option EntriesConfig) (polyfills : Option (List Polyfill)) :
    createLoadScriptFunction entries legacyEntries polyfills =
      if hasPolyfills polyfills = true ∨ entries.type = EntryType.script
          ∨ Option.map EntriesConfig.type legacyEntries = some EntryType.script
      then loadScriptFunction else "" := by
  obtain ⟨t, fs, pdi⟩ := entries
  rcases polyfills with _ | (_ | ⟨p, ps⟩) <;>
    rcases legacyEntries with _ | ⟨lt, lfs, lpdi⟩ <;>
    cases t <;> (try cases lt) <;>
    simp [createLoadScriptFunction, hasPolyfills]

/-- C3: with a legacy config present, the `loadEntries` body is the single
`'noModule' in HTMLScriptElement.prototype ? ... : ...;` ternary containing
the modern and the legacy load expressions; with no legacy config it is
exactly the modern load expression followed by `;`, with no ternary wrapper. -/
theorem c3_entriesLoaderFunction (cleanImportPath : String → String → String)
    (entries legacy : EntriesConfig) (publicPath : String) :
    createEntriesLoaderFunction cleanImportPath entries (some legacy) publicPath
      = "\x27noModule\x27 in HTMLScriptElement.prototype ? "
        ++ entryLoaderCreators entries.type
            (entries.files.map (fun p => cleanImportPath p publicPath))
            entries.polyfillDynamicImport
        ++ " : "
        ++ entryLoaderCreators legacy.type
            (legacy.files.map (fun p => cleanImportPath p publicPath)) none
        ++ ";"
  ∧ createEntriesLoaderFunction cleanImportPath entries none publicPath
      = entryLoaderCreators entries.type
          (entries.files.map (fun p => cleanImportPath p publicPath))
          entries.polyfillDynamicImport ++ ";" :=
  ⟨rfl, rfl⟩

/-- C5: `createLoadScriptFunction` emits either the `loadScript` helper text
or nothing, and emits the helper exactly when polyfills are configured, the
modern entries use the `script` strategy, or a present legacy config uses the
`script` strategy. -/
theorem c5_loadScriptFunction_inclusion (entries : EntriesConfig)
    (legacyEntries : Option EntriesConfig) (polyfills : Option (List Polyfill)) :
    (createLoadScriptFunction entries legacyEntries polyfills = loadScriptFunction
      ∨ createLoadScriptFunction entries legacyEntries polyfills = "")
  ∧ (createLoadScriptFunction entries legacyEntries polyfills = loadScriptFunction
      ↔ hasPolyfills polyfills = true ∨ entries.type = EntryType.script
        ∨ Option.map EntriesConfig.type legacyEntries = some EntryType.script) := by
  have hne : loadScriptFunction ≠ "" := by decide
  rw [createLoadScriptFunction_eq]
  by_cases hcond : (hasPolyfills polyfills = true ∨ entries.type = EntryType.script
      ∨ Option.map EntriesConfig.type legacyEntries = some EntryType.script)
  · rw [if_pos hcond]
    exact ⟨Or.inl rfl, iff_of_true rfl hcond⟩
  · rw [if_neg hcond]
    exact ⟨Or.inr rfl, iff_of_false (fun h => hne h.symm) hcond⟩

/-- C5 witnessed: `script` entries alone force the helper in. -/
theorem c5_loadScriptFunction_inclusion_witness :
    createLoadScriptFunction ⟨EntryType.script, ["a.js"], none⟩ none none
      = loadScriptFunction :=
  (c5_loadScriptFunction_inclusion ⟨EntryType.script, ["a.js"], none⟩ none none).2.mpr
    (Or.inr (Or.inl rfl))

/-- C6: the `module` strategy uses the native `import` exactly when
`polyfillDynamicImport` is the boolean `false`, and `window.importShim` for
every other value of the flag, including absent. -/
theorem c6_moduleImportFunction (files : List String) (pdi : Option Bool) :
    (pdi = some false →
      entryLoaderCreators EntryType.module files pdi = moduleExprUsing "import" files)
  ∧ (pdi ≠ some false →
      entryLoaderCreators EntryType.module files pdi
        = moduleExprUsing "window.importShim" files) := by
  constructor
  · intro h
    subst h
    rcases files with _ | ⟨f, _ | ⟨g, rest⟩⟩ <;> rfl
  · intro h
    rcases files with _ | ⟨f, _ | ⟨g, rest⟩⟩ <;>
      simp [entryLoaderCreators, moduleExprUsing, h]

/-- C6 witnessed at a one-file module config, for the flag `false` and for an
absent flag. -/
theorem c6_moduleImportFunction_witness :
    entryLoaderCreators EntryType.module ["a.js"] (some false)
      = moduleExprUsing "import" ["a.js"]
  ∧ ((none : Option Bool) ≠ some false)
  ∧ entryLoaderCreators EntryType.module ["a.js"] none
      = moduleExprUsing "window.importShim" ["a.js"] :=
  ⟨(c6_moduleImportFunction ["a.js"] (some false)).1 rfl,
   by decide,
   (c6_moduleImportFunction ["a.js"] none).2 (by decide)⟩

/-- C7: the legacy load expression is built by the strategy creator for the
legacy type with no dynamic-import flag (`none`); the result is therefore
independent of the legacy config's `polyfillDynamicImport` field, and a legacy
`module` config always yields a `window.importShim` expression. -/
theorem c7_legacyWithoutImportFlag (cleanImportPath : String → String → String)
    (entries legacy : EntriesConfig) (publicPath : String) :
    createEntriesLoaderFunction cleanImportPath entries (some legacy) publicPath
      = "\x27noModule\x27 in HTMLScriptElement.prototype ? "
        ++ entryLoaderCreators entries.type
            (entries.files.map (fun p => cleanImportPath p publicPath))
            entries.polyfillDynamicImport
        ++ " : "
        ++ entryLoaderCreators legacy.type
            (legacy.files.map (fun p => cleanImportPath p publicPath)) none
        ++ ";"
  ∧ (∀ b : Option Bool,
      createEntriesLoaderFunction cleanImportPath entries
          (some ⟨legacy.type, legacy.files, b⟩) publicPath
        = createEntriesLoaderFunction cleanImportPath entries (some legacy) publicPath)
  ∧ (legacy.type = EntryType.module →
      entryLoaderCreators legacy.type
          (legacy.files.map (fun p => cleanImportPath p publicPath)) none
        = moduleExprUsing "window.importShim"
            (legacy.files.map (fun p => cleanImportPath p publicPath))) := by
  refine ⟨rfl, fun b => rfl, fun h => ?_⟩
  rw [h]
  generalize (legacy.files.map fun p => cleanImportPath p publicPath) = fs
  rcases fs with _ | ⟨f, _ | ⟨g, rest⟩⟩ <;> simp [entryLoaderCreators, moduleExprUsing]

/-- C7 witnessed: a legacy `module` config with `polyfillDynamicImport: false`
still loads via `window.importShim`, and flipping the legacy flag does not
change the generated body. -/
theorem c7_legacyWithoutImportFlag_witness :
    entryLoaderCreators EntryType.module ["l.js"] none
      = moduleExprUsing "window.importShim" ["l.js"]
  ∧ createEntriesLoaderFunction (fun p _ => p) ⟨EntryType.module, ["a.js"], some false⟩
        (some ⟨EntryType.module, ["l.js"], none⟩) ""
      = createEntriesLoaderFunction (fun p _ => p) ⟨EntryType.module, ["a.js"], some false⟩
        (some ⟨EntryType.module, ["l.js"], some false⟩) "" :=
  ⟨(c7_legacyWithoutImportFlag (fun p _ => p) ⟨EntryType.module, ["a.js"], some false⟩
      ⟨EntryType.module, ["l.js"], some false⟩ "").2.2 rfl,
   (c7_legacyWithoutImportFlag (fun p _ => p) ⟨EntryType.module, ["a.js"], some false⟩
      ⟨EntryType.module, ["l.js"], some false⟩ "").2.1 none⟩

/-- One `pushPolyfillCode` step appends exactly the `polyfillLine` of the
polyfill being visited. -/
lemma pushPolyfillCode_eq {Cfg : Type} (polyfillFilename : Polyfill → Cfg → String)
    (polyfillsConfig : Cfg) (publicPath : String) (code : String) (polyfill : Polyfill) :
    pushPolyfillCode polyfillFilename polyfillsConfig publicPath code polyfill
      = code ++ polyfillLine polyfillFilename polyfillsConfig publicPath polyfill := by
  unfold pushPolyfillCode polyfillLine
  rcases hp : polyfill.test with _ | t
  · simp
  · by_cases ht : t = "" <;> simp [ht, String.append_assoc]

/-- Folding string append over a list shifts the accumulator out front. -/
lemma stringFoldlAppend : ∀ (l : List String) (a : String),
    l.foldl (fun r s => r ++ s) a = a ++ l.foldl (fun r s => r ++ s) "" := by
  intro l
  induction l with
  | nil => intro a; simp
  | cons b t ih =>
    intro a
    rw [List.foldl_cons, List.foldl_cons, ih (a ++ b), ih ("" ++ b)]
    simp [String.append_assoc]

/-- `String.join` distributes over `cons`. -/
lemma stringJoin_cons (a : String) (l : List String) :
    String.join (a :: l) = a ++ String.join l := by
  simp only [String.join, List.foldl_cons, String.empty_append]
  exact stringFoldlAppend l a

/-- The polyfills fold equals the concatenation, in input order, of the
per-polyfill lines. -/
lemma polyfillsLoader_foldl {Cfg : Type} (polyfillFilename : Polyfill → Cfg → String)
    (polyfillsConfig : Cfg) (publicPath : String) :
    ∀ (ps : List Polyfill) (code : String),
      ps.foldl (pushPolyfillCode polyfillFilename polyfillsConfig publicPath) code
        = code ++ String.join
            (ps.map (polyfillLine polyfillFilename polyfillsConfig publicPath)) := by
  intro ps
  induction ps with
  | nil => intro code; simp [String.join]
  | cons p t ih =>
    intro code
    rw [List.foldl_cons, ih, pushPolyfillCode_eq, List.map_cons, stringJoin_cons,
      String.append_assoc]

/-- C8: for a present polyfill sequence the generated code is the declaration
followed by the per-polyfill lines joined in input order, with no sorting or
deduplication; a polyfill with a falsy `test` contributes the empty line, and
a polyfill with a truthy `test` contributes exactly the single conditional
`polyfills.push(loadScript('<publicPath>polyfills/<filename>.js', <bool>))`
statement with the boolean coercion of its `module` field. -/
theorem c8_polyfillsLoader_lines {Cfg : Type} (polyfillFilename : Polyfill → Cfg → String)
    (polyfillsConfig : Cfg) (publicPath : String) (ps : List Polyfill) :
    createPolyfillsLoader polyfillFilename (some ps) polyfillsConfig publicPath
      = "  var polyfills = [];\n"
        ++ String.join (ps.map (polyfillLine polyfillFilename polyfillsConfig publicPath))
  ∧ (∀ p : Polyfill, strTruthy p.test = false →
      polyfillLine polyfillFilename polyfillsConfig publicPath p = "")
  ∧ (∀ p : Polyfill, ∀ t : String, p.test = some t → strTruthy p.test = true →
      polyfillLine polyfillFilename polyfillsConfig publicPath p
        = "  if (" ++ t ++ ") \x7b polyfills.push(loadScript(\x27" ++ publicPath
          ++ "polyfills/" ++ polyfillFilename p polyfillsConfig ++ ".js\x27, "
          ++ (if jsBool p.module then "true" else "false") ++ ")) \x7d\n") := by
  refine ⟨polyfillsLoader_foldl polyfillFilename polyfillsConfig publicPath ps _, ?_, ?_⟩
  · intro p hfalsy
    rcases hp : p.test with _ | t
    · simp [polyfillLine, hp]
    · rw [hp] at hfalsy
      simp only [strTruthy, Bool.not_eq_false'] at hfalsy
      have ht : t = "" := by simpa using hfalsy
      simp [polyfillLine, hp, ht]
  · intro p t hp htruthy
    rw [hp] at htruthy
    simp only [strTruthy, Bool.not_eq_true'] at htruthy
    have ht : t ≠ "" := by simpa using htruthy
    simp [polyfillLine, hp, ht]

/-- C8 witnessed: a truthy-test polyfill emits its single conditional line,
a test-less polyfill emits nothing. -/
theorem c8_polyfillsLoader_lines_witness :
    polyfillLine (fun (p : Polyfill) (_ : Unit) => p.name) () "/p/"
        ⟨none, none, "core-js"⟩ = ""
  ∧ polyfillLine (fun (p : Polyfill) (_ : Unit) => p.name) () "/p/"
        ⟨some "!window.fetch", some true, "fetch"⟩
      = "  if (!window.fetch) \x7b polyfills.push(loadScript(\x27/p/polyfills/fetch.js\x27, true)) \x7d\n" :=
  ⟨(c8_polyfillsLoader_lines (fun p _ => p.name) () "/p/" []).2.1
      ⟨none, none, "core-js"⟩ rfl,
   (c8_polyfillsLoader_lines (fun p _ => p.name) () "/p/" []).2.2
      ⟨some "!window.fetch", some true, "fetch"⟩ "!window.fetch" rfl rfl⟩

/-- C10: with a present but empty polyfill sequence and `minified = false`,
the loader script output contains the `var polyfills = [];` declaration, yet
the helper inclusion decision behaves as if no polyfills were configured
(helper present only for a `script` strategy) and the entries are executed by
the direct call `loadEntries()`. -/
theorem c10_emptyPolyfills {Cfg : Type} (cleanImportPath : String → String → String)
    (polyfillFilename : Polyfill → Cfg → String) (minify : String → String)
    (entries : EntriesConfig) (legacyEntries : Option EntriesConfig)
    (polyfillsConfig : Cfg) (publicPath : String) :
    createLoaderScript cleanImportPath polyfillFilename minify entries legacyEntries
        (some []) polyfillsConfig false publicPath
      = "(function() \x7b" ++ createLoadScriptFunction entries legacyEntries (some [])
        ++ "  var polyfills = [];\n"
        ++ ("\n  function loadEntries() \x7b\n    "
            ++ createEntriesLoaderFunction cleanImportPath entries legacyEntries publicPath
            ++ "\n  \x7d\n\n  " ++ "loadEntries()" ++ "\n")
        ++ "\x7d)();"
  ∧ createLoadScriptFunction entries legacyEntries (some [])
      = (if entries.type = EntryType.script
            ∨ Option.map EntriesConfig.type legacyEntries = some EntryType.script
         then loadScriptFunction else "")
  ∧ createExecuteLoadEntries (some []) = "loadEntries()" := by
  refine ⟨rfl, ?_, rfl⟩
  rw [createLoadScriptFunction_eq]
  simp [hasPolyfills]
